import Mathlib

/-!
Shallow embedding of the GameLad pixel-processing unit (src/gb-emu-lib/GPU.cpp).

Machine bytes are embedded as `Nat` with explicit `% 256` where the C++ code
converts to `byte`, `% 65536` where it converts to `ushort`, and `Int` where
the C++ code computes with signed `int`.  Memories (`m_VRAM`, `m_OAM`,
`m_DisplayPixels`) are embedded as total functions `Nat → Nat`; the external
MMU collaborator is a read function carried in the state.  Side effects
(interrupt requests through the CPU collaborator, the VSync callback) are
returned as an explicit effect list in program order.
-/

namespace GB

/-- Effects emitted by `Step`: an INT40 (VBlank) interrupt request, an INT48
(LCD STAT) interrupt request, or an invocation of the VSync frame callback. -/
inductive GPUEffect where
  | intVBlank : GPUEffect
  | intStat : GPUEffect
  | frame : GPUEffect
deriving DecidableEq

/-- Modelled from the spec: cycle threshold of OAM-search mode (constant
`ReadingOAMCycles` lives in GPU.hpp, which is not under src/); spec section 3
fixes the four durations to sum to 456 per scanline, and the GPU.cpp comment
block gives mode 2 about 77-83 clks. -/
def ReadingOAMCycles : Nat := 80

/-- Modelled from the spec: cycle threshold of VRAM-transfer mode (GPU.hpp);
the GPU.cpp comment gives mode 3 about 169-175 clks. -/
def ReadingOAMVRAMCycles : Nat := 172

/-- Modelled from the spec: cycle threshold of HBlank mode (GPU.hpp); the
GPU.cpp comment gives mode 0 about 201-207 clks and 456 per full scanline. -/
def HBlankCycles : Nat := 204

/-- Modelled from the spec: per-line cycle threshold of VBlank mode (GPU.hpp);
the GPU.cpp comment gives VBlank as 10 lines at 456 cycles per line. -/
def VBlankCycles : Nat := 456

/-- Modelled from the spec: STAT mode code for HBlank (GPU.hpp constant
`ModeHBlank`); the STAT comment block in GPU.cpp gives mode 0 = H-Blank. -/
def ModeHBlank : Nat := 0

/-- Modelled from the spec: STAT mode code for VBlank (GPU.cpp comment:
mode 1 = V-Blank). -/
def ModeVBlank : Nat := 1

/-- Modelled from the spec: STAT mode code for OAM search (GPU.cpp comment:
mode 2 = Searching OAM-RAM). -/
def ModeReadingOAM : Nat := 2

/-- Modelled from the spec: STAT mode code for VRAM transfer (GPU.cpp comment:
mode 3 = Transferring Data to LCD Driver). -/
def ModeReadingOAMVRAM : Nat := 3

/-- The global shade table `GBColors` of GPU.cpp: shade index 0 is the
lightest (0xEB) and shade index 3 the darkest (0x00). -/
def GBColors : List Nat := [0xEB, 0xC4, 0x60, 0x00]

/-- Lookup in `GBColors` (array indexing in the C++ source). -/
def gbColor (i : Nat) : Nat := GBColors.getD i 0

/-- Modelled from the spec: the `ISBITSET` macro of the shared project header
(not under src/), testing one bit of a register byte. -/
def isBitSet (v bit : Nat) : Bool := Nat.testBit v bit

/-- Modelled from the spec: the `SETBIT` macro of the shared project header. -/
def setBit (v bit : Nat) : Nat := v ||| (1 <<< bit)

/-- Modelled from the spec: the `CLEARBIT` macro of the shared project header,
applied to a register byte. -/
def clearBit (v bit : Nat) : Nat := v &&& (0xFF ^^^ (1 <<< bit))

/-- Conversion of a byte value to C++ `sbyte` (signed char), as in
`static_cast<sbyte>(tileNumber)` in `RenderBackgroundScanline`. -/
def sbyteCast (b : Nat) : Int :=
  if b % 256 < 128 then ((b % 256 : Nat) : Int) else ((b % 256 : Nat) : Int) - 256

/-- The GPU state: the register bank, the video/object memories, the
framebuffer, and the external collaborators (MMU read function, presence of
the CPU interrupt collaborator and of the VSync callback). -/
structure GPUState where
  lcdControl : Nat
  stat : Nat
  scrollY : Nat
  scrollX : Nat
  ly : Nat
  lyc : Nat
  windowY : Nat
  windowX : Nat
  bgp : Nat
  obp0 : Nat
  obp1 : Nat
  modeClock : Nat
  vram : Nat → Nat
  oam : Nat → Nat
  fb : Nat → Nat
  mmu : Nat → Nat
  cpuPresent : Bool
  vsyncPresent : Bool

/-- The `GETMODE` macro: low two bits of the STAT register. -/
def getMode (s : GPUState) : Nat := s.stat &&& 0x03

/-- The `SETMODE` macro: replace the low two bits of the STAT register. -/
def setMode (s : GPUState) (m : Nat) : GPUState :=
  { s with stat := (s.stat &&& 0xFC) ||| m }

/-- The `IsLCDDisplayEnabled` macro: bit 7 of the LCD control register. -/
def displayEnabled (s : GPUState) : Bool := isBitSet s.lcdControl 7

/-- `GPU::ReadByte`: arbitrated byte read over VRAM, OAM and the register
bank, with the mode-dependent blocking of GPU.cpp. -/
def ReadByte (s : GPUState) (address : Nat) : Nat :=
  if 0x8000 ≤ address ∧ address ≤ 0x9FFF then
    if displayEnabled s = true ∧ getMode s = ModeReadingOAMVRAM then 0
    else s.vram (address - 0x8000)
  else if 0xFE00 ≤ address ∧ address ≤ 0xFE9F then
    if displayEnabled s = true ∧
        (getMode s = ModeReadingOAM ∨ getMode s = ModeReadingOAMVRAM) then 0
    else s.oam (address - 0xFE00)
  else if address = 0xFF40 then s.lcdControl
  else if address = 0xFF41 then s.stat
  else if address = 0xFF42 then s.scrollY
  else if address = 0xFF43 then s.scrollX
  else if address = 0xFF44 then s.ly
  else if address = 0xFF45 then s.lyc
  else if address = 0xFF4A then s.windowY
  else if address = 0xFF4B then s.windowX
  else if address = 0xFF47 then s.bgp
  else if address = 0xFF48 then s.obp0
  else if address = 0xFF49 then s.obp1
  else 0

/-- The OAM copy loop of `GPU::LaunchDMATransfer`: after `n` iterations the
first `n` object-memory bytes have been replaced by MMU reads at
`source ||| offset`, and the returned list logs the MMU read addresses in
issue order. -/
def dmaCopy (mmu oam : Nat → Nat) (source : Nat) : Nat → ((Nat → Nat) × List Nat)
  | 0 => (oam, [])
  | n + 1 =>
    let p := dmaCopy mmu oam source n
    (Function.update p.1 n (mmu (source ||| n)), p.2 ++ [source ||| n])

/-- `GPU::LaunchDMATransfer`: copy 160 bytes from the external MMU at
`address * 0x100` into object memory, returning the new state and the list
of MMU addresses read. -/
def LaunchDMATransfer (s : GPUState) (address : Nat) : GPUState × List Nat :=
  let source := (address * 0x0100) % 65536
  let p := dmaCopy s.mmu s.oam source 0xA0
  ({ s with oam := p.1 }, p.2)

/-- `GPU::WriteByte`: arbitrated byte write; returns the updated state and
the C++ boolean result. -/
def WriteByte (s : GPUState) (address val : Nat) : GPUState × Bool :=
  if 0x8000 ≤ address ∧ address ≤ 0x9FFF then
    if displayEnabled s = true ∧ getMode s = ModeReadingOAMVRAM then (s, false)
    else ({ s with vram := Function.update s.vram (address - 0x8000) (val % 256) }, true)
  else if 0xFE00 ≤ address ∧ address ≤ 0xFE9F then
    if displayEnabled s = true ∧
        (getMode s = ModeReadingOAM ∨ getMode s = ModeReadingOAMVRAM) then (s, false)
    else ({ s with oam := Function.update s.oam (address - 0xFE00) (val % 256) }, true)
  else if address = 0xFF40 then ({ s with lcdControl := val % 256 }, true)
  else if address = 0xFF41 then
    ({ s with stat := ((val % 256) &&& 0xF8) ||| (s.stat &&& 0x07) }, true)
  else if address = 0xFF42 then ({ s with scrollY := val % 256 }, true)
  else if address = 0xFF43 then ({ s with scrollX := val % 256 }, true)
  else if address = 0xFF44 then ({ s with ly := 0 }, true)
  else if address = 0xFF45 then ({ s with lyc := val % 256 }, true)
  else if address = 0xFF4A then ({ s with windowY := val % 256 }, true)
  else if address = 0xFF4B then ({ s with windowX := val % 256 }, true)
  else if address = 0xFF47 then ({ s with bgp := val % 256 }, true)
  else if address = 0xFF48 then ({ s with obp0 := val % 256 }, true)
  else if address = 0xFF49 then ({ s with obp1 := val % 256 }, true)
  else if address = 0xFF46 then ((LaunchDMATransfer s (val % 256)).1, true)
  else (s, false)

/-- The background palette array built at the top of
`GPU::RenderBackgroundScanline` from the BGP register. -/
def bgPalette (s : GPUState) (i : Nat) : Nat :=
  [gbColor (s.bgp &&& 0x03), gbColor ((s.bgp >>> 2) &&& 0x03),
   gbColor ((s.bgp >>> 4) &&& 0x03), gbColor ((s.bgp >>> 6) &&& 0x03)].getD i 0

/-- One column of `GPU::RenderBackgroundScanline`: the shade written for
column `x` of the current scanline, together with the list of arbitrated
`ReadByte` addresses issued for it (tile map byte, two bitplane bytes). -/
def bgPixel (s : GPUState) (x : Nat) : Nat × List Nat :=
  let tileNumberMap : Nat := if isBitSet s.lcdControl 3 then 0x9C00 else 0x9800
  let tileData : Nat := if isBitSet s.lcdControl 4 then 0x8000 else 0x9000
  let tileY := ((s.ly + s.scrollY) / 8) % 32
  let tileYOffset := (s.ly + s.scrollY) % 8
  let tileX := ((s.scrollX + x) / 8) % 32
  let mapAddr := (tileNumberMap + tileY * 32 + tileX) % 65536
  let tileNumber := ReadByte s mapAddr
  let tileDataPtr : Nat :=
    if isBitSet s.lcdControl 4 then (tileData + tileNumber * 0x10) % 65536
    else ((((tileData : Int) + sbyteCast tileNumber * 0x10) % 65536).toNat)
  let ptr := (tileDataPtr + tileYOffset * 2) % 65536
  let b1 := ReadByte s ptr
  let b2 := ReadByte s ((ptr + 1) % 65536)
  let bit := 7 - ((s.scrollX + x) % 8)
  let pLo : Nat := if isBitSet b1 bit then 0x01 else 0x00
  let pHi : Nat := if isBitSet b2 bit then 0x02 else 0x00
  (bgPalette s (pLo + pHi), [mapAddr, ptr, (ptr + 1) % 65536])

/-- The background column loop: after `n` iterations, columns `0 … n-1` of
the current scanline have been written into the framebuffer, and the second
component logs every arbitrated read issued so far. -/
def bgColumns (s : GPUState) : Nat → ((Nat → Nat) × List Nat)
  | 0 => (s.fb, [])
  | x + 1 =>
    let p := bgColumns s x
    (Function.update p.1 (s.ly * 160 + x) (bgPixel s x).1, p.2 ++ (bgPixel s x).2)

/-- The loop of the background-disabled branch of
`GPU::RenderBackgroundScanline`: fill columns `0 … n-1` of the current
scanline with `GBColors[0]`. -/
def whiteColumns (fb : Nat → Nat) (ly : Nat) : Nat → (Nat → Nat)
  | 0 => fb
  | x + 1 => Function.update (whiteColumns fb ly x) (ly * 160 + x) (gbColor 0)

/-- `GPU::RenderBackgroundScanline`: returns the updated state and the list
of arbitrated `ReadByte` addresses issued for the background layer. -/
def RenderBackgroundScanline (s : GPUState) : GPUState × List Nat :=
  if isBitSet s.lcdControl 0 = false then
    ({ s with fb := whiteColumns s.fb s.ly 160 }, [])
  else
    let p := bgColumns s 160
    ({ s with fb := p.1 }, p.2)

/-- The sprite palette array built inside `GPU::RenderOBJScanline` from OBP0
or OBP1 (slot 0 is the transparent slot and unused). -/
def objPalette (s : GPUState) (paletteNumber i : Nat) : Nat :=
  let reg := if paletteNumber = 0x00 then s.obp0 else s.obp1
  [0x00, gbColor ((reg >>> 2) &&& 0x03), gbColor ((reg >>> 4) &&& 0x03),
   gbColor ((reg >>> 6) &&& 0x03)].getD i 0

/-- The inner 8-pixel loop of `GPU::RenderOBJScanline` for one sprite line:
after `n` iterations, pixels `indexX = 0 … n-1` have been composited. -/
def objPixels (s : GPUState) (flags low high : Nat) (x : Int) (paletteNumber : Nat)
    (fb : Nat → Nat) : Nat → (Nat → Nat)
  | 0 => fb
  | n + 1 =>
    let fbAcc := objPixels s flags low high x paletteNumber fb n
    let pixelX : Int := x + (n : Int)
    if 0 ≤ pixelX ∧ pixelX < 160 then
      let bit : Nat := if isBitSet flags 5 then n else 7 - n
      let pixelVal : Nat :=
        (if isBitSet high bit then 0x02 else 0x00) + (if isBitSet low bit then 0x01 else 0x00)
      if pixelVal ≠ 0x00 then
        let index := s.ly * 160 + pixelX.toNat
        let color := objPalette s paletteNumber pixelVal
        if isBitSet flags 7 = false then Function.update fbAcc index color
        else if fbAcc index = 0x00 then Function.update fbAcc index color
        else fbAcc
      else fbAcc
    else fbAcc

/-- One iteration of the sprite loop of `GPU::RenderOBJScanline`, for the
sprite whose OAM entry starts at byte offset `i`. -/
def objSprite (s : GPUState) (fb : Nat → Nat) (i : Nat) : Nat → Nat :=
  let objY := s.oam i
  let spriteSize : Nat := if isBitSet s.lcdControl 2 then 0x10 else 0x08
  let height : Int := (spriteSize : Int)
  let y : Int := (objY : Int) - 16
  if y ≤ (s.ly : Int) ∧ (s.ly : Int) < y + height then
    let objX := s.oam (i + 1)
    let tn := s.oam (i + 2)
    let spriteFlags := s.oam (i + 3)
    let spriteTileNumber := if spriteSize = 0x10 then tn &&& 0xFE else tn
    let paletteNumber : Nat := if isBitSet spriteFlags 4 then 0x01 else 0x00
    let x : Int := (objX : Int) - 8
    let tileYOffset : Nat :=
      if isBitSet spriteFlags 6 then
        (((height - 1) - ((s.ly : Int) - y)) % 256).toNat
      else (((s.ly : Int) - y) % 256).toNat
    let tilePointer := (0x8000 + spriteTileNumber * 16 + tileYOffset * 2) % 65536
    let low := ReadByte s tilePointer
    let high := ReadByte s ((tilePointer + 1) % 65536)
    objPixels s spriteFlags low high x paletteNumber fb 8
  else fb

/-- The outer sprite loop of `GPU::RenderOBJScanline`: after `n` iterations,
sprites `0 … n-1` (OAM offsets `0, 4, …`) have been composited in ascending
index order. -/
def objSprites (s : GPUState) : Nat → (Nat → Nat)
  | 0 => s.fb
  | k + 1 => objSprite s (objSprites s k) (4 * k)

/-- `GPU::RenderOBJScanline`: composite all 40 sprites onto the current
scanline of the framebuffer. -/
def RenderOBJScanline (s : GPUState) : GPUState :=
  { s with fb := objSprites s 40 }

/-- `GPU::RenderScanline`: background layer, stubbed window layer, then the
sprite layer when sprite display is enabled. -/
def RenderScanline (s : GPUState) : GPUState :=
  let s1 := (RenderBackgroundScanline s).1
  if isBitSet s1.lcdControl 1 then RenderOBJScanline s1 else s1

/-- The state in which the scanline renderers run during the
VRAM-transfer-to-HBlank transition of `GPU::Step`: threshold already
subtracted from the mode clock and STAT mode bits already set to HBlank. -/
def hblankEntry (s : GPUState) : GPUState :=
  setMode { s with modeClock := s.modeClock - ReadingOAMVRAMCycles } ModeHBlank

/-- The VRAM-transfer-to-HBlank transition body of `GPU::Step`: render the
scanline, then request an LCD-STAT interrupt if the HBlank STAT-interrupt
enable bit is set and the CPU collaborator is present. -/
def hblankTransition (s : GPUState) : GPUState × List GPUEffect :=
  let s2 := RenderScanline (hblankEntry s)
  (s2, if isBitSet s2.stat 3 = true ∧ s2.cpuPresent = true then [GPUEffect.intStat] else [])

/-- The HBlank-threshold body of `GPU::Step`, applied after the scanline
increment: enter VBlank at scanline 144 (frame callback, INT40, conditional
INT48), otherwise go back to OAM search. -/
def hblankEnd (s1 : GPUState) : GPUState × List GPUEffect :=
  if s1.ly = 144 then
    let s2 := setMode s1 ModeVBlank
    (s2, (if s2.vsyncPresent = true then [GPUEffect.frame] else []) ++
      (if s2.cpuPresent = true then
        GPUEffect.intVBlank ::
          (if isBitSet s2.stat 4 then [GPUEffect.intStat] else [])
       else []))
  else (setMode s1 ModeReadingOAM, [])

/-- The VBlank-threshold body of `GPU::Step`, applied after the scanline
increment: wrap to OAM search at scanline 154, else stay in VBlank. -/
def vblankLine (s1 : GPUState) : GPUState × List GPUEffect :=
  if s1.ly = 154 then (setMode { s1 with ly := 0 } ModeReadingOAM, [])
  else (s1, [])

/-- The mode switch of `GPU::Step`, applied to the state whose mode clock
already includes the new cycles. -/
def stepModesAt (s : GPUState) : GPUState × List GPUEffect :=
  if getMode s = ModeReadingOAM then
    if ReadingOAMCycles ≤ s.modeClock then
      (setMode { s with modeClock := s.modeClock - ReadingOAMCycles } ModeReadingOAMVRAM, [])
    else (s, [])
  else if getMode s = ModeReadingOAMVRAM then
    if ReadingOAMVRAMCycles ≤ s.modeClock then hblankTransition s
    else (s, [])
  else if getMode s = ModeHBlank then
    if HBlankCycles ≤ s.modeClock then
      hblankEnd { s with modeClock := s.modeClock - HBlankCycles, ly := (s.ly + 1) % 256 }
    else (s, [])
  else if getMode s = ModeVBlank then
    if VBlankCycles ≤ s.modeClock then
      vblankLine { s with modeClock := s.modeClock - VBlankCycles, ly := (s.ly + 1) % 256 }
    else (s, [])
  else (s, [])

/-- The mode handling of `GPU::Step`: add the elapsed cycles to the mode
clock, then dispatch on the current mode. -/
def stepModes (s : GPUState) (cycles : Nat) : GPUState × List GPUEffect :=
  stepModesAt { s with modeClock := s.modeClock + cycles }

/-- The coincidence block at the end of `GPU::Step`: derive STAT bit 2 from
the comparison of LYC with LY, requesting an LCD-STAT interrupt when the
coincidence interrupt is enabled. -/
def stepCoincidence (s : GPUState) : GPUState × List GPUEffect :=
  if s.lyc = s.ly then
    let s1 := { s with stat := setBit s.stat 2 }
    (s1, if isBitSet s1.stat 6 = true ∧ s1.cpuPresent = true then [GPUEffect.intStat] else [])
  else ({ s with stat := clearBit s.stat 2 }, [])

/-- `GPU::Step`: the display-disabled early return, else mode handling
followed by the coincidence block; effects are listed in program order. -/
def Step (s : GPUState) (cycles : Nat) : GPUState × List GPUEffect :=
  if displayEnabled s = false then
    (setMode { s with ly := 153, modeClock := VBlankCycles } ModeVBlank, [])
  else
    let p := stepModes s cycles
    let q := stepCoincidence p.1
    (q.1, p.2 ++ q.2)

/-- The number of VBlank interrupt requests in an effect list. -/
def vblankCount : List GPUEffect → Nat
  | [] => 0
  | GPUEffect.intVBlank :: rest => vblankCount rest + 1
  | _ :: rest => vblankCount rest

/-- The mode threshold named by the spec for each STAT mode code. -/
def modeThreshold (m : Nat) : Nat :=
  if m = ModeHBlank then HBlankCycles
  else if m = ModeVBlank then VBlankCycles
  else if m = ModeReadingOAM then ReadingOAMCycles
  else ReadingOAMVRAMCycles

/-- The recognized writable register addresses of `GPU::WriteByte`. -/
def registerAddresses : List Nat :=
  [0xFF40, 0xFF41, 0xFF42, 0xFF43, 0xFF44, 0xFF45, 0xFF46,
   0xFF47, 0xFF48, 0xFF49, 0xFF4A, 0xFF4B]

/-- All state fields except the framebuffer agree; the scanline renderers
only touch the framebuffer. -/
def sameExceptFb (s t : GPUState) : Prop :=
  t.lcdControl = s.lcdControl ∧ t.stat = s.stat ∧ t.scrollY = s.scrollY ∧
  t.scrollX = s.scrollX ∧ t.ly = s.ly ∧ t.lyc = s.lyc ∧ t.windowY = s.windowY ∧
  t.windowX = s.windowX ∧ t.bgp = s.bgp ∧ t.obp0 = s.obp0 ∧ t.obp1 = s.obp1 ∧
  t.modeClock = s.modeClock ∧ t.vram = s.vram ∧ t.oam = s.oam ∧ t.mmu = s.mmu ∧
  t.cpuPresent = s.cpuPresent ∧ t.vsyncPresent = s.vsyncPresent

/-- A baseline state: all registers zero, all memories zero, collaborators
absent. -/
def mkState : GPUState :=
  { lcdControl := 0, stat := 0, scrollY := 0, scrollX := 0, ly := 0, lyc := 0,
    windowY := 0, windowX := 0, bgp := 0, obp0 := 0, obp1 := 0, modeClock := 0,
    vram := fun _ => 0, oam := fun _ => 0, fb := fun _ => 0, mmu := fun _ => 0,
    cpuPresent := false, vsyncPresent := false }

/-- Object memory holding a single sprite in entry 0: Y = 16, X = 8,
tile 0, attribute flags 0x80 (priority behind background). -/
def prioritySpriteOAM : Nat → Nat :=
  fun i => if i = 0 then 16 else if i = 1 then 8 else if i = 3 then 0x80 else 0

/-- Video memory whose tile 0 row 0 has low bitplane 0xFF and high bitplane
0x00: every pixel of that row has 2-bit color index 1. -/
def prioritySpriteVRAM : Nat → Nat := fun i => if i = 0 then 0xFF else 0

/-- A state at scanline 0 with the behind-background sprite of
`prioritySpriteOAM`, OBP0 mapping color index 1 to shade index 1 (0xC4), and
the whole framebuffer holding the lightest shade `GBColors[0] = 0xEB`. -/
def priorityWhiteState : GPUState :=
  { mkState with
    obp0 := 0x04
    oam := prioritySpriteOAM
    vram := prioritySpriteVRAM
    fb := fun _ => 0xEB }

/-- The same state as `priorityWhiteState` but with the whole framebuffer
holding the darkest shade `GBColors[3] = 0x00`. -/
def priorityDarkState : GPUState :=
  { priorityWhiteState with fb := fun _ => 0x00 }

/-- A display-enabled state in OAM-search mode with mode clock 0. -/
def oamSearchState : GPUState :=
  { mkState with lcdControl := 0x80, stat := 0x02, lyc := 1 }

/-- A display-enabled state at the end of scanline 143 in HBlank mode, with
STAT VBlank-interrupt enable set and both collaborators present. -/
def endOfLine143State : GPUState :=
  { mkState with
    lcdControl := 0x80
    stat := 0x10
    ly := 143
    lyc := 200
    cpuPresent := true
    vsyncPresent := true }

/-- A display-enabled state in VRAM-transfer mode (STAT mode bits 3), in
which VRAM and OAM accesses are gated. -/
def vramTransferState : GPUState :=
  { mkState with lcdControl := 0x80, stat := 0x03 }

/-- A display-enabled state in HBlank mode with the CPU collaborator
present. -/
def hblankIdleState : GPUState :=
  { mkState with lcdControl := 0x80, cpuPresent := true }

end GB

namespace GB

theorem land_lor_distrib_right (x y z : Nat) :
    (x ||| y) &&& z = (x &&& z) ||| (y &&& z) := by
  apply Nat.eq_of_testBit_eq
  intro i
  simp [Nat.testBit_lor, Nat.testBit_land, Bool.and_or_distrib_right]

theorem land_three_eq_mod (x : Nat) : x &&& 3 = x % 4 :=
  Nat.and_pow_two_sub_one_eq_mod x 2

theorem getMode_lt_four (s : GPUState) : getMode s < 4 := by
  unfold getMode
  rw [land_three_eq_mod]
  omega

theorem getMode_setMode (s : GPUState) (m : Nat) (hm : m < 4) :
    getMode (setMode s m) = m := by
  show ((s.stat &&& 0xFC) ||| m) &&& 3 = m
  rw [land_lor_distrib_right, Nat.land_assoc]
  have h1 : (0xFC &&& 3 : Nat) = 0 := by decide
  rw [h1, Nat.and_zero, Nat.zero_or, land_three_eq_mod]
  omega

theorem testBit_high_of_lt {m k : Nat} (hm : m < 4) (h2 : 2 ≤ k) :
    Nat.testBit m k = false := by
  apply Nat.testBit_eq_false_of_lt
  calc m < 4 := hm
    _ = 2 ^ 2 := by norm_num
    _ ≤ 2 ^ k := Nat.pow_le_pow_right (by norm_num) h2

theorem testBit_setMode (x m k : Nat) (hm : m < 4) (h2 : 2 ≤ k) (h8 : k < 8) :
    Nat.testBit ((x &&& 0xFC) ||| m) k = Nat.testBit x k := by
  rw [Nat.testBit_lor, Nat.testBit_land, testBit_high_of_lt hm h2]
  have hc : Nat.testBit 0xFC k = true := by interval_cases k <;> decide
  simp [hc]

theorem getMode_updateStat (s : GPUState) (v : Nat) :
    getMode { s with stat := v } = v &&& 3 := rfl

theorem land_setBit2_three (x : Nat) : setBit x 2 &&& 3 = x &&& 3 := by
  show (x ||| (1 <<< 2)) &&& 3 = x &&& 3
  rw [land_lor_distrib_right]
  have h1 : ((1 <<< 2 : Nat) &&& 3) = 0 := by decide
  rw [h1, Nat.or_zero]

theorem land_clearBit2_three (x : Nat) : clearBit x 2 &&& 3 = x &&& 3 := by
  show (x &&& (0xFF ^^^ (1 <<< 2))) &&& 3 = x &&& 3
  rw [Nat.land_assoc]
  have h1 : ((0xFF ^^^ (1 <<< 2) : Nat) &&& 3) = 3 := by decide
  rw [h1]

theorem testBit_setBit2 (x k : Nat) (hk : k ≠ 2) :
    Nat.testBit (setBit x 2) k = Nat.testBit x k := by
  show Nat.testBit (x ||| (1 <<< 2)) k = Nat.testBit x k
  rw [Nat.testBit_lor]
  have h4 : (1 <<< 2 : Nat) = 2 ^ 2 := by decide
  have h1 : Nat.testBit (1 <<< 2) k = false := by
    rw [h4]
    exact Nat.testBit_two_pow_of_ne (fun h => hk h.symm)
  rw [h1, Bool.or_false]

theorem testBit_setBit2_self (x : Nat) : Nat.testBit (setBit x 2) 2 = true := by
  show Nat.testBit (x ||| (1 <<< 2)) 2 = true
  rw [Nat.testBit_lor]
  have h1 : Nat.testBit (1 <<< 2) 2 = true := by decide
  rw [h1, Bool.or_true]

theorem testBit_clearBit2 (x k : Nat) (hk : k ≠ 2) (h8 : k < 8) :
    Nat.testBit (clearBit x 2) k = Nat.testBit x k := by
  show Nat.testBit (x &&& (0xFF ^^^ (1 <<< 2))) k = Nat.testBit x k
  rw [Nat.testBit_land]
  have h1 : Nat.testBit (0xFF ^^^ (1 <<< 2)) k = true := by
    interval_cases k <;> first | decide | exact absurd rfl hk
  rw [h1, Bool.and_true]

theorem testBit_clearBit2_self (x : Nat) : Nat.testBit (clearBit x 2) 2 = false := by
  show Nat.testBit (x &&& (0xFF ^^^ (1 <<< 2))) 2 = false
  rw [Nat.testBit_land]
  have h1 : Nat.testBit (0xFF ^^^ (1 <<< 2)) 2 = false := by decide
  rw [h1, Bool.and_false]

end GB

namespace GB

/-- C4: a Step call with the display-enable bit clear forces scanline 153,
VBlank mode, mode clock equal to the VBlank threshold, and returns with no
rendering, no interrupt or frame effects, and the coincidence bit
untouched. -/
theorem step_display_disabled (s : GPUState) (cycles : Nat)
    (hd : displayEnabled s = false) :
    (Step s cycles).1.ly = 153 ∧
    getMode (Step s cycles).1 = ModeVBlank ∧
    (Step s cycles).1.modeClock = VBlankCycles ∧
    (Step s cycles).1.fb = s.fb ∧
    (Step s cycles).2 = [] ∧
    isBitSet ((Step s cycles).1.stat) 2 = isBitSet s.stat 2 := by
  unfold Step
  rw [if_pos hd]
  refine ⟨rfl, ?_, rfl, rfl, rfl, ?_⟩
  · exact getMode_setMode _ _ (by decide)
  · show Nat.testBit ((s.stat &&& 0xFC) ||| ModeVBlank) 2 = Nat.testBit s.stat 2
    exact testBit_setMode s.stat ModeVBlank 2 (by decide) (by decide) (by decide)

/-- Witness for C4 at a concrete disabled state. -/
theorem step_display_disabled_witness :
    (Step mkState 7).1.ly = 153 ∧
    getMode (Step mkState 7).1 = ModeVBlank ∧
    (Step mkState 7).1.modeClock = VBlankCycles ∧
    (Step mkState 7).1.fb = mkState.fb ∧
    (Step mkState 7).2 = [] ∧
    isBitSet ((Step mkState 7).1.stat) 2 = isBitSet mkState.stat 2 :=
  step_display_disabled mkState 7 (by decide)

theorem whiteColumns_hit (fb : Nat → Nat) (ly : Nat) :
    ∀ n x, x < n → whiteColumns fb ly n (ly * 160 + x) = gbColor 0 := by
  intro n
  induction n with
  | zero => omega
  | succ n ih =>
    intro x hx
    show Function.update (whiteColumns fb ly n) (ly * 160 + n) (gbColor 0) (ly * 160 + x)
      = gbColor 0
    by_cases hxn : x = n
    · subst hxn
      rw [Function.update_same]
    · rw [Function.update_noteq (by omega)]
      exact ih x (by omega)

/-- C8: with the background-display control bit clear, rendering a scanline
writes shade index 0 (the lightest shade, 0xEB) into all 160 framebuffer
columns of the current scanline and issues no arbitrated tile-memory
reads. -/
theorem bg_disabled_scanline (s : GPUState)
    (h : isBitSet s.lcdControl 0 = false) :
    (∀ x, x < 160 →
      (RenderBackgroundScanline s).1.fb (s.ly * 160 + x) = gbColor 0) ∧
    (RenderBackgroundScanline s).2 = [] ∧ gbColor 0 = 0xEB := by
  unfold RenderBackgroundScanline
  rw [if_pos h]
  exact ⟨fun x hx => whiteColumns_hit s.fb s.ly 160 x hx, rfl, rfl⟩

/-- Witness for C8 at a concrete state with background display disabled. -/
theorem bg_disabled_scanline_witness :
    (∀ x, x < 160 →
      (RenderBackgroundScanline mkState).1.fb (mkState.ly * 160 + x) = gbColor 0) ∧
    (RenderBackgroundScanline mkState).2 = [] ∧ gbColor 0 = 0xEB :=
  bg_disabled_scanline mkState (by decide)

theorem shiftLeft_or_eq_add (x : Nat) :
    ∀ (n : Nat) (y : Nat), y < 2 ^ n → (x <<< n) ||| y = x <<< n + y := by
  intro n
  induction n generalizing x with
  | zero =>
    intro y hy
    interval_cases y
    simp
  | succ n ih =>
    intro y hy
    have hy2 : y / 2 < 2 ^ n := by
      have h2 : 2 ^ (n + 1) = 2 ^ n * 2 := by ring
      omega
    have hbit : Nat.bit (Nat.bodd y) (y / 2) = y := by
      rw [Nat.bit_val]
      have hb := Nat.bodd_add_div2 y
      simp [Nat.div2_val] at hb
      cases h : Nat.bodd y <;> simp [h] at hb ⊢ <;> omega
    have hx : x <<< (n + 1) = Nat.bit false (x <<< n) := by
      rw [Nat.bit_val]
      simp [Nat.shiftLeft_eq]
      ring
    rw [← hbit, hx, Nat.lor_bit]
    simp only [Bool.false_or]
    rw [ih x (y / 2) hy2]
    rw [Nat.bit_val, Nat.bit_val]
    cases h : Nat.bodd y <;> simp <;> omega

theorem mul_256_or_eq_add (v i : Nat) (h : i < 256) :
    (v * 256) ||| i = v * 256 + i := by
  have h1 : v * 256 = v <<< 8 := by
    rw [Nat.shiftLeft_eq]
  rw [h1, shiftLeft_or_eq_add v 8 i (by omega)]

theorem dmaCopy_log (mmu oam : Nat → Nat) (source : Nat) :
    ∀ n, (dmaCopy mmu oam source n).2 = (List.range n).map (fun i => source ||| i) := by
  intro n
  induction n with
  | zero => rfl
  | succ n ih =>
    show (dmaCopy mmu oam source n).2 ++ [source ||| n] = _
    rw [ih, List.range_succ, List.map_append]
    rfl

theorem dmaCopy_oam (mmu oam : Nat → Nat) (source : Nat) :
    ∀ n i, (dmaCopy mmu oam source n).1 i =
      if i < n then mmu (source ||| i) else oam i := by
  intro n
  induction n with
  | zero =>
    intro i
    simp [dmaCopy]
  | succ n ih =>
    intro i
    show Function.update (dmaCopy mmu oam source n).1 n (mmu (source ||| n)) i = _
    by_cases hin : i = n
    · subst hin
      rw [Function.update_same, if_pos (by omega)]
    · rw [Function.update_noteq hin, ih i]
      by_cases hlt : i < n
      · rw [if_pos hlt, if_pos (by omega)]
      · rw [if_neg hlt, if_neg (by omega)]

/-- C7: a write of byte V to the DMA-trigger register 0xFF46, in any mode and
with the display enabled or disabled, launches the DMA transfer and succeeds;
the transfer issues exactly 160 MMU reads at V*256 … V*256+159 in ascending
order, stores the returned bytes into object-memory bytes 0 … 159, leaves the
rest of object memory alone, and stores no value in any register. -/
theorem dma_trigger_write (s : GPUState) (V : Nat) (hV : V < 256) :
    WriteByte s 0xFF46 V = ((LaunchDMATransfer s V).1, true) ∧
    (LaunchDMATransfer s V).2 = (List.range 160).map (fun i => V * 256 + i) ∧
    (∀ i, i < 160 → (LaunchDMATransfer s V).1.oam i = s.mmu (V * 256 + i)) ∧
    (∀ i, 160 ≤ i → (LaunchDMATransfer s V).1.oam i = s.oam i) ∧
    (LaunchDMATransfer s V).1.lcdControl = s.lcdControl ∧
    (LaunchDMATransfer s V).1.stat = s.stat ∧
    (LaunchDMATransfer s V).1.scrollY = s.scrollY ∧
    (LaunchDMATransfer s V).1.scrollX = s.scrollX ∧
    (LaunchDMATransfer s V).1.ly = s.ly ∧
    (LaunchDMATransfer s V).1.lyc = s.lyc ∧
    (LaunchDMATransfer s V).1.windowY = s.windowY ∧
    (LaunchDMATransfer s V).1.windowX = s.windowX ∧
    (LaunchDMATransfer s V).1.bgp = s.bgp ∧
    (LaunchDMATransfer s V).1.obp0 = s.obp0 ∧
    (LaunchDMATransfer s V).1.obp1 = s.obp1 ∧
    (LaunchDMATransfer s V).1.vram = s.vram ∧
    (LaunchDMATransfer s V).1.fb = s.fb := by
  have hsrc : (V * 0x0100) % 65536 = V * 256 := by
    have : V * 0x0100 < 65536 := by omega
    omega
  have hlog : ∀ i, i < 256 → (V * 256) ||| i = V * 256 + i :=
    fun i hi => mul_256_or_eq_add V i hi
  refine ⟨?_, ?_, ?_, ?_, rfl, rfl, rfl, rfl, rfl, rfl, rfl, rfl, rfl, rfl, rfl, rfl, rfl⟩
  · show WriteByte s 0xFF46 V = _
    unfold WriteByte
    norm_num
    rw [Nat.mod_eq_of_lt hV]
  · show (dmaCopy s.mmu s.oam ((V * 0x0100) % 65536) 0xA0).2 = _
    rw [hsrc, dmaCopy_log]
    apply List.map_congr_left
    intro i hi
    have hi2 : i < 160 := List.mem_range.mp hi
    exact hlog i (by omega)
  · intro i hi
    show (dmaCopy s.mmu s.oam ((V * 0x0100) % 65536) 0xA0).1 i = _
    rw [hsrc, dmaCopy_oam, if_pos (by omega), hlog i (by omega)]
  · intro i hi
    show (dmaCopy s.mmu s.oam ((V * 0x0100) % 65536) 0xA0).1 i = _
    rw [hsrc, dmaCopy_oam, if_neg (by omega)]

/-- Witness for C7 with trigger value 0xF1. -/
theorem dma_trigger_write_witness :
    WriteByte mkState 0xFF46 0xF1 = ((LaunchDMATransfer mkState 0xF1).1, true) ∧
    (LaunchDMATransfer mkState 0xF1).2 =
      (List.range 160).map (fun i => 0xF1 * 256 + i) ∧
    (∀ i, i < 160 →
      (LaunchDMATransfer mkState 0xF1).1.oam i = mkState.mmu (0xF1 * 256 + i)) ∧
    (∀ i, 160 ≤ i →
      (LaunchDMATransfer mkState 0xF1).1.oam i = mkState.oam i) ∧
    (LaunchDMATransfer mkState 0xF1).1.lcdControl = mkState.lcdControl ∧
    (LaunchDMATransfer mkState 0xF1).1.stat = mkState.stat ∧
    (LaunchDMATransfer mkState 0xF1).1.scrollY = mkState.scrollY ∧
    (LaunchDMATransfer mkState 0xF1).1.scrollX = mkState.scrollX ∧
    (LaunchDMATransfer mkState 0xF1).1.ly = mkState.ly ∧
    (LaunchDMATransfer mkState 0xF1).1.lyc = mkState.lyc ∧
    (LaunchDMATransfer mkState 0xF1).1.windowY = mkState.windowY ∧
    (LaunchDMATransfer mkState 0xF1).1.windowX = mkState.windowX ∧
    (LaunchDMATransfer mkState 0xF1).1.bgp = mkState.bgp ∧
    (LaunchDMATransfer mkState 0xF1).1.obp0 = mkState.obp0 ∧
    (LaunchDMATransfer mkState 0xF1).1.obp1 = mkState.obp1 ∧
    (LaunchDMATransfer mkState 0xF1).1.vram = mkState.vram ∧
    (LaunchDMATransfer mkState 0xF1).1.fb = mkState.fb :=
  dma_trigger_write mkState 0xF1 (by decide)

end GB

namespace GB

/-- C6: accesses to the video-memory range are blocked (reads return 0,
writes leave video memory unchanged) exactly when the display is enabled and
the mode is VRAM transfer, and otherwise hit the stored bytes; accesses to
the object-memory range are blocked under the same display condition exactly
when the mode is OAM search or VRAM transfer. -/
theorem memory_access_gating (s : GPUState) (a v : Nat) :
    ((0x8000 ≤ a ∧ a ≤ 0x9FFF) →
      if displayEnabled s = true ∧ getMode s = ModeReadingOAMVRAM then
        ReadByte s a = 0 ∧ (WriteByte s a v).1.vram = s.vram
      else
        ReadByte s a = s.vram (a - 0x8000) ∧
        (WriteByte s a v).1.vram = Function.update s.vram (a - 0x8000) (v % 256)) ∧
    ((0xFE00 ≤ a ∧ a ≤ 0xFE9F) →
      if displayEnabled s = true ∧
          (getMode s = ModeReadingOAM ∨ getMode s = ModeReadingOAMVRAM) then
        ReadByte s a = 0 ∧ (WriteByte s a v).1.oam = s.oam
      else
        ReadByte s a = s.oam (a - 0xFE00) ∧
        (WriteByte s a v).1.oam = Function.update s.oam (a - 0xFE00) (v % 256)) := by
  constructor
  · intro hr
    unfold ReadByte WriteByte
    rw [if_pos hr, if_pos hr]
    split_ifs with hg
    · exact ⟨rfl, rfl⟩
    · exact ⟨rfl, rfl⟩
  · intro hr
    have hnv : ¬(0x8000 ≤ a ∧ a ≤ 0x9FFF) := by omega
    unfold ReadByte WriteByte
    rw [if_neg hnv, if_neg hnv, if_pos hr, if_pos hr]
    split_ifs with hg
    · exact ⟨rfl, rfl⟩
    · exact ⟨rfl, rfl⟩

/-- Witness for C6: in a display-enabled VRAM-transfer state, a VRAM read
returns 0 and a VRAM write leaves video memory unchanged, and OAM is gated
too. -/
theorem memory_access_gating_witness :
    (ReadByte vramTransferState 0x8000 = 0 ∧
      (WriteByte vramTransferState 0x8000 5).1.vram = vramTransferState.vram) ∧
    (ReadByte vramTransferState 0xFE00 = 0 ∧
      (WriteByte vramTransferState 0xFE00 5).1.oam = vramTransferState.oam) := by
  have h := memory_access_gating vramTransferState 0x8000 5
  have h2 := memory_access_gating vramTransferState 0xFE00 5
  constructor
  · have hv := h.1 (by decide)
    rw [if_pos (by decide)] at hv
    exact hv
  · have ho := h2.2 (by decide)
    rw [if_pos (by decide)] at ho
    exact ho

theorem mem_registerAddresses (a : Nat) :
    a ∈ registerAddresses ↔ (0xFF40 ≤ a ∧ a ≤ 0xFF4B) := by
  simp [registerAddresses]
  omega

/-- C10: `WriteByte` returns true exactly when the write takes effect (an
ungated video/object-memory store, a recognized register, the scanline
reset, or the DMA launch), and when it returns false the state is left
completely unchanged. -/
theorem writeByte_success_iff (s : GPUState) (a v : Nat) :
    ((WriteByte s a v).2 = true ↔
      ((0x8000 ≤ a ∧ a ≤ 0x9FFF) ∧
        ¬(displayEnabled s = true ∧ getMode s = ModeReadingOAMVRAM)) ∨
      ((0xFE00 ≤ a ∧ a ≤ 0xFE9F) ∧
        ¬(displayEnabled s = true ∧
          (getMode s = ModeReadingOAM ∨ getMode s = ModeReadingOAMVRAM))) ∨
      a ∈ registerAddresses) ∧
    ((WriteByte s a v).2 = false → (WriteByte s a v).1 = s) := by
  rw [mem_registerAddresses]
  unfold WriteByte
  by_cases h1 : 0x8000 ≤ a ∧ a ≤ 0x9FFF
  · rw [if_pos h1]
    by_cases h2 : displayEnabled s = true ∧ getMode s = ModeReadingOAMVRAM
    · rw [if_pos h2]
      refine ⟨iff_of_false (fun h => nomatch h) ?_, fun _ => rfl⟩
      rintro (⟨_, hng⟩ | ⟨hr2, _⟩ | hreg) <;> first | exact hng h2 | omega
    · rw [if_neg h2]
      exact ⟨iff_of_true rfl (Or.inl ⟨h1, h2⟩), fun h => nomatch h⟩
  · rw [if_neg h1]
    by_cases h3 : 0xFE00 ≤ a ∧ a ≤ 0xFE9F
    · rw [if_pos h3]
      by_cases h4 : displayEnabled s = true ∧
          (getMode s = ModeReadingOAM ∨ getMode s = ModeReadingOAMVRAM)
      · rw [if_pos h4]
        refine ⟨iff_of_false (fun h => nomatch h) ?_, fun _ => rfl⟩
        rintro (⟨hr, _⟩ | ⟨_, hng⟩ | hreg) <;> first | exact hng h4 | omega
      · rw [if_neg h4]
        exact ⟨iff_of_true rfl (Or.inr (Or.inl ⟨h3, h4⟩)), fun h => nomatch h⟩
    · rw [if_neg h3]
      by_cases h5 : a = 0xFF40
      · rw [if_pos h5]
        exact ⟨iff_of_true rfl (Or.inr (Or.inr (by omega))), fun h => nomatch h⟩
      · rw [if_neg h5]
        by_cases h6 : a = 0xFF41
        · rw [if_pos h6]
          exact ⟨iff_of_true rfl (Or.inr (Or.inr (by omega))), fun h => nomatch h⟩
        · rw [if_neg h6]
          by_cases h7 : a = 0xFF42
          · rw [if_pos h7]
            exact ⟨iff_of_true rfl (Or.inr (Or.inr (by omega))), fun h => nomatch h⟩
          · rw [if_neg h7]
            by_cases h8 : a = 0xFF43
            · rw [if_pos h8]
              exact ⟨iff_of_true rfl (Or.inr (Or.inr (by omega))), fun h => nomatch h⟩
            · rw [if_neg h8]
              by_cases h9 : a = 0xFF44
              · rw [if_pos h9]
                exact ⟨iff_of_true rfl (Or.inr (Or.inr (by omega))), fun h => nomatch h⟩
              · rw [if_neg h9]
                by_cases h10 : a = 0xFF45
                · rw [if_pos h10]
                  exact ⟨iff_of_true rfl (Or.inr (Or.inr (by omega))), fun h => nomatch h⟩
                · rw [if_neg h10]
                  by_cases h11 : a = 0xFF4A
                  · rw [if_pos h11]
                    exact ⟨iff_of_true rfl (Or.inr (Or.inr (by omega))), fun h => nomatch h⟩
                  · rw [if_neg h11]
                    by_cases h12 : a = 0xFF4B
                    · rw [if_pos h12]
                      exact ⟨iff_of_true rfl (Or.inr (Or.inr (by omega))), fun h => nomatch h⟩
                    · rw [if_neg h12]
                      by_cases h13 : a = 0xFF47
                      · rw [if_pos h13]
                        exact ⟨iff_of_true rfl (Or.inr (Or.inr (by omega))), fun h => nomatch h⟩
                      · rw [if_neg h13]
                        by_cases h14 : a = 0xFF48
                        · rw [if_pos h14]
                          exact ⟨iff_of_true rfl (Or.inr (Or.inr (by omega))), fun h => nomatch h⟩
                        · rw [if_neg h14]
                          by_cases h15 : a = 0xFF49
                          · rw [if_pos h15]
                            exact ⟨iff_of_true rfl (Or.inr (Or.inr (by omega))), fun h => nomatch h⟩
                          · rw [if_neg h15]
                            by_cases h16 : a = 0xFF46
                            · rw [if_pos h16]
                              exact ⟨iff_of_true rfl (Or.inr (Or.inr (by omega))), fun h => nomatch h⟩
                            · rw [if_neg h16]
                              refine ⟨iff_of_false (fun h => nomatch h) ?_, fun _ => rfl⟩
                              rintro (⟨hr, _⟩ | ⟨hr, _⟩ | hreg) <;> omega

/-- Witness for C10: a write to an unrecognized address reports failure and
leaves the state unchanged. -/
theorem writeByte_success_iff_witness :
    (WriteByte mkState 0x7000 9).1 = mkState :=
  (writeByte_success_iff mkState 0x7000 9).2 (by decide)

end GB

namespace GB

theorem renderBG_sameExceptFb (s : GPUState) :
    sameExceptFb s (RenderBackgroundScanline s).1 := by
  unfold RenderBackgroundScanline sameExceptFb
  split_ifs <;>
    exact ⟨rfl, rfl, rfl, rfl, rfl, rfl, rfl, rfl, rfl, rfl, rfl, rfl, rfl, rfl,
      rfl, rfl, rfl⟩

theorem renderOBJ_sameExceptFb (s : GPUState) :
    sameExceptFb s (RenderOBJScanline s) :=
  ⟨rfl, rfl, rfl, rfl, rfl, rfl, rfl, rfl, rfl, rfl, rfl, rfl, rfl, rfl, rfl,
    rfl, rfl⟩

theorem sameExceptFb_trans {s t u : GPUState}
    (h1 : sameExceptFb s t) (h2 : sameExceptFb t u) : sameExceptFb s u := by
  obtain ⟨a1, a2, a3, a4, a5, a6, a7, a8, a9, a10, a11, a12, a13, a14, a15, a16, a17⟩ := h1
  obtain ⟨b1, b2, b3, b4, b5, b6, b7, b8, b9, b10, b11, b12, b13, b14, b15, b16, b17⟩ := h2
  exact ⟨b1.trans a1, b2.trans a2, b3.trans a3, b4.trans a4, b5.trans a5,
    b6.trans a6, b7.trans a7, b8.trans a8, b9.trans a9, b10.trans a10,
    b11.trans a11, b12.trans a12, b13.trans a13, b14.trans a14, b15.trans a15,
    b16.trans a16, b17.trans a17⟩

theorem renderScanline_sameExceptFb (s : GPUState) :
    sameExceptFb s (RenderScanline s) := by
  simp only [RenderScanline]
  split_ifs
  · exact sameExceptFb_trans (renderBG_sameExceptFb s) (renderOBJ_sameExceptFb _)
  · exact renderBG_sameExceptFb s

theorem hblankTransition_pres (t : GPUState) :
    (hblankTransition t).1.lyc = t.lyc ∧
    (hblankTransition t).1.cpuPresent = t.cpuPresent ∧
    (hblankTransition t).1.vsyncPresent = t.vsyncPresent ∧
    (hblankTransition t).1.lcdControl = t.lcdControl := by
  have h := renderScanline_sameExceptFb (hblankEntry t)
  obtain ⟨a1, a2, a3, a4, a5, a6, a7, a8, a9, a10, a11, a12, a13, a14, a15, a16, a17⟩ := h
  exact ⟨a6, a16, a17, a1⟩

theorem hblankEnd_pres (t : GPUState) :
    (hblankEnd t).1.lyc = t.lyc ∧
    (hblankEnd t).1.cpuPresent = t.cpuPresent ∧
    (hblankEnd t).1.vsyncPresent = t.vsyncPresent ∧
    (hblankEnd t).1.lcdControl = t.lcdControl := by
  unfold hblankEnd
  split_ifs <;> exact ⟨rfl, rfl, rfl, rfl⟩

theorem vblankLine_pres (t : GPUState) :
    (vblankLine t).1.lyc = t.lyc ∧
    (vblankLine t).1.cpuPresent = t.cpuPresent ∧
    (vblankLine t).1.vsyncPresent = t.vsyncPresent ∧
    (vblankLine t).1.lcdControl = t.lcdControl := by
  unfold vblankLine
  split_ifs <;> exact ⟨rfl, rfl, rfl, rfl⟩

theorem stepModes_pres (s : GPUState) (c : Nat) :
    (stepModes s c).1.lyc = s.lyc ∧
    (stepModes s c).1.cpuPresent = s.cpuPresent ∧
    (stepModes s c).1.vsyncPresent = s.vsyncPresent ∧
    (stepModes s c).1.lcdControl = s.lcdControl := by
  unfold stepModes stepModesAt
  split_ifs
  · exact ⟨rfl, rfl, rfl, rfl⟩
  · exact ⟨rfl, rfl, rfl, rfl⟩
  · exact hblankTransition_pres _
  · exact ⟨rfl, rfl, rfl, rfl⟩
  · exact hblankEnd_pres _
  · exact ⟨rfl, rfl, rfl, rfl⟩
  · exact vblankLine_pres _
  · exact ⟨rfl, rfl, rfl, rfl⟩
  · exact ⟨rfl, rfl, rfl, rfl⟩

theorem stepCoincidence_spec (t : GPUState) :
    (stepCoincidence t).1.ly = t.ly ∧
    (stepCoincidence t).1.lyc = t.lyc ∧
    (stepCoincidence t).1.modeClock = t.modeClock ∧
    getMode (stepCoincidence t).1 = getMode t ∧
    (stepCoincidence t).1.fb = t.fb ∧
    (isBitSet ((stepCoincidence t).1.stat) 2 = true ↔ t.lyc = t.ly) ∧
    isBitSet ((stepCoincidence t).1.stat) 6 = isBitSet t.stat 6 ∧
    (stepCoincidence t).2 =
      (if t.lyc = t.ly ∧ isBitSet t.stat 6 = true ∧ t.cpuPresent = true
       then [GPUEffect.intStat] else []) := by
  simp only [stepCoincidence]
  by_cases h : t.lyc = t.ly
  · rw [if_pos h]
    refine ⟨rfl, rfl, rfl, land_setBit2_three t.stat, rfl, ?_, ?_, ?_⟩
    · exact iff_of_true (testBit_setBit2_self t.stat) h
    · exact testBit_setBit2 t.stat 6 (by decide)
    · show (if isBitSet (setBit t.stat 2) 6 = true ∧ t.cpuPresent = true
          then [GPUEffect.intStat] else []) = _
      rw [show isBitSet (setBit t.stat 2) 6 = isBitSet t.stat 6 from
        testBit_setBit2 t.stat 6 (by decide)]
      by_cases hbc : isBitSet t.stat 6 = true ∧ t.cpuPresent = true
      · rw [if_pos hbc, if_pos ⟨h, hbc.1, hbc.2⟩]
      · rw [if_neg hbc, if_neg (fun hx => hbc ⟨hx.2.1, hx.2.2⟩)]
  · rw [if_neg h]
    refine ⟨rfl, rfl, rfl, land_clearBit2_three t.stat, rfl, ?_, ?_, ?_⟩
    · refine iff_of_false ?_ h
      rw [show isBitSet (clearBit t.stat 2) 2 = false from testBit_clearBit2_self t.stat]
      exact fun hx => nomatch hx
    · exact testBit_clearBit2 t.stat 6 (by decide) (by decide)
    · rw [if_neg (fun hx => h hx.1)]

/-- C5: after every Step call with the display enabled and the CPU
collaborator present, the coincidence status bit (STAT bit 2) is set exactly
when the scanline index equals the scanline-compare register, and the
coincidence block appends an LCD-STAT interrupt request to the effects of
the mode handling exactly when that bit is set together with the
coincidence-interrupt-enable bit (STAT bit 6). -/
theorem step_coincidence_after (s : GPUState) (c : Nat)
    (hd : displayEnabled s = true) (hcpu : s.cpuPresent = true) :
    (isBitSet ((Step s c).1.stat) 2 = true ↔
      (Step s c).1.lyc = (Step s c).1.ly) ∧
    (Step s c).2 = (stepModes s c).2 ++
      (if (Step s c).1.lyc = (Step s c).1.ly ∧
          isBitSet ((Step s c).1.stat) 6 = true
       then [GPUEffect.intStat] else []) := by
  have hne : ¬(displayEnabled s = false) := by rw [hd]; exact fun h => nomatch h
  have h1 : (Step s c).1 = (stepCoincidence (stepModes s c).1).1 := by
    unfold Step
    rw [if_neg hne]
  have h2 : (Step s c).2 =
      (stepModes s c).2 ++ (stepCoincidence (stepModes s c).1).2 := by
    unfold Step
    rw [if_neg hne]
  obtain ⟨hly, hlyc, hmc, hgm, hfb, hbit2, hbit6, heff⟩ :=
    stepCoincidence_spec (stepModes s c).1
  have hcpu2 : (stepModes s c).1.cpuPresent = true := by
    rw [(stepModes_pres s c).2.1, hcpu]
  constructor
  · rw [h1, hly, hlyc]
    exact hbit2
  · rw [h2, h1, hly, hlyc, hbit6, heff]
    congr 1
    by_cases hc : (stepModes s c).1.lyc = (stepModes s c).1.ly ∧
        isBitSet ((stepModes s c).1.stat) 6 = true
    · rw [if_pos ⟨hc.1, hc.2, hcpu2⟩, if_pos hc]
    · rw [if_neg (fun hx => hc ⟨hx.1, hx.2.1⟩), if_neg hc]

/-- Witness for C5 at a concrete display-enabled state with the CPU
collaborator present. -/
theorem step_coincidence_after_witness :
    (isBitSet ((Step hblankIdleState 3).1.stat) 2 = true ↔
      (Step hblankIdleState 3).1.lyc = (Step hblankIdleState 3).1.ly) ∧
    (Step hblankIdleState 3).2 = (stepModes hblankIdleState 3).2 ++
      (if (Step hblankIdleState 3).1.lyc = (Step hblankIdleState 3).1.ly ∧
          isBitSet ((Step hblankIdleState 3).1.stat) 6 = true
       then [GPUEffect.intStat] else []) :=
  step_coincidence_after hblankIdleState 3 (by decide) (by decide)

/-- C9: whenever `Step` performs the VRAM-transfer-to-HBlank transition, the
state in which the scanline renderers run already carries the HBlank mode
bits, so an arbitrated video-memory read in that state takes the unblocked
branch and returns the stored video-memory byte, and the post-mode-handling
state is exactly the rendered HBlank-entry state. -/
theorem hblank_entry_unblocked (s : GPUState) (c : Nat)
    (hd : displayEnabled s = true) (hm : getMode s = ModeReadingOAMVRAM)
    (hth : ReadingOAMVRAMCycles ≤ s.modeClock + c) :
    getMode (hblankEntry { s with modeClock := s.modeClock + c }) = ModeHBlank ∧
    (∀ a, 0x8000 ≤ a → a ≤ 0x9FFF →
      ReadByte (hblankEntry { s with modeClock := s.modeClock + c }) a =
        s.vram (a - 0x8000)) ∧
    (stepModes s c).1 =
      RenderScanline (hblankEntry { s with modeClock := s.modeClock + c }) ∧
    (Step s c).1.fb =
      (RenderScanline (hblankEntry { s with modeClock := s.modeClock + c })).fb := by
  have hne : ¬(displayEnabled s = false) := by rw [hd]; exact fun h => nomatch h
  have hg : getMode (hblankEntry { s with modeClock := s.modeClock + c }) =
      ModeHBlank := getMode_setMode _ _ (by decide)
  have hmt : getMode { s with modeClock := s.modeClock + c } = ModeReadingOAMVRAM := hm
  have hsm : (stepModes s c).1 =
      RenderScanline (hblankEntry { s with modeClock := s.modeClock + c }) := by
    unfold stepModes stepModesAt
    rw [if_neg (fun h => by rw [hmt] at h; exact absurd h (by decide))]
    rw [if_pos hmt, if_pos hth]
    rfl
  refine ⟨hg, ?_, hsm, ?_⟩
  · intro a ha1 ha2
    unfold ReadByte
    rw [if_pos ⟨ha1, ha2⟩]
    rw [if_neg ?_]
    · rfl
    · rintro ⟨-, h3⟩
      rw [hg] at h3
      exact absurd h3 (by decide)
  · have h1 : (Step s c).1 = (stepCoincidence (stepModes s c).1).1 := by
      unfold Step
      rw [if_neg hne]
    rw [h1, (stepCoincidence_spec (stepModes s c).1).2.2.2.2.1, hsm]

/-- Witness for C9 at a concrete display-enabled VRAM-transfer state. -/
theorem hblank_entry_unblocked_witness :
    getMode (hblankEntry { vramTransferState with
      modeClock := vramTransferState.modeClock + 172 }) = ModeHBlank ∧
    (∀ a, 0x8000 ≤ a → a ≤ 0x9FFF →
      ReadByte (hblankEntry { vramTransferState with
        modeClock := vramTransferState.modeClock + 172 }) a =
          vramTransferState.vram (a - 0x8000)) ∧
    (stepModes vramTransferState 172).1 =
      RenderScanline (hblankEntry { vramTransferState with
        modeClock := vramTransferState.modeClock + 172 }) ∧
    (Step vramTransferState 172).1.fb =
      (RenderScanline (hblankEntry { vramTransferState with
        modeClock := vramTransferState.modeClock + 172 })).fb :=
  hblank_entry_unblocked vramTransferState 172 (by decide) (by decide) (by decide)

end GB

namespace GB

theorem vblankCount_append (l1 l2 : List GPUEffect) :
    vblankCount (l1 ++ l2) = vblankCount l1 + vblankCount l2 := by
  induction l1 with
  | nil => simp [vblankCount]
  | cons e rest ih =>
    cases e <;> simp [vblankCount, ih] <;> omega

theorem vblankCount_stepCoincidence (t : GPUState) :
    vblankCount (stepCoincidence t).2 = 0 := by
  rw [(stepCoincidence_spec t).2.2.2.2.2.2.2]
  split_ifs <;> rfl

theorem vblankCount_hblankTransition (t : GPUState) :
    vblankCount (hblankTransition t).2 = 0 := by
  simp only [hblankTransition]
  split_ifs <;> rfl

theorem vblankCount_vblankLine (t : GPUState) :
    vblankCount (vblankLine t).2 = 0 := by
  unfold vblankLine
  split_ifs <;> rfl

theorem vblankCount_hblankEnd (t : GPUState) :
    vblankCount (hblankEnd t).2 =
      if t.ly = 144 ∧ t.cpuPresent = true then 1 else 0 := by
  simp only [hblankEnd]
  by_cases h144 : t.ly = 144
  · rw [if_pos h144]
    by_cases hcp : t.cpuPresent = true
    · rw [if_pos (show t.ly = 144 ∧ t.cpuPresent = true from ⟨h144, hcp⟩),
        if_pos (show (setMode t ModeVBlank).cpuPresent = true from hcp)]
      by_cases hv : t.vsyncPresent = true
      · rw [if_pos (show (setMode t ModeVBlank).vsyncPresent = true from hv)]
        by_cases hb : isBitSet ((setMode t ModeVBlank).stat) 4 = true
        · rw [if_pos hb]
          rfl
        · rw [if_neg hb]
          rfl
      · rw [if_neg (show ¬((setMode t ModeVBlank).vsyncPresent = true) from hv)]
        by_cases hb : isBitSet ((setMode t ModeVBlank).stat) 4 = true
        · rw [if_pos hb]
          rfl
        · rw [if_neg hb]
          rfl
    · rw [if_neg (show ¬(t.ly = 144 ∧ t.cpuPresent = true) from fun hx => hcp hx.2),
        if_neg (show ¬((setMode t ModeVBlank).cpuPresent = true) from hcp)]
      by_cases hv : t.vsyncPresent = true
      · rw [if_pos (show (setMode t ModeVBlank).vsyncPresent = true from hv)]
        rfl
      · rw [if_neg (show ¬((setMode t ModeVBlank).vsyncPresent = true) from hv)]
        rfl
  · rw [if_neg h144,
      if_neg (show ¬(t.ly = 144 ∧ t.cpuPresent = true) from fun hx => h144 hx.1)]
    rfl

theorem vblankCount_stepModesAt (t : GPUState) (hcpu : t.cpuPresent = true) :
    vblankCount (stepModesAt t).2 =
      if getMode t = ModeHBlank ∧ HBlankCycles ≤ t.modeClock ∧
          (t.ly + 1) % 256 = 144
       then 1 else 0 := by
  unfold stepModesAt
  by_cases h1 : getMode t = ModeReadingOAM
  · rw [if_pos h1, if_neg (show ¬(getMode t = ModeHBlank ∧ HBlankCycles ≤ t.modeClock ∧ (t.ly + 1) % 256 = 144) from fun hx => absurd (h1.symm.trans hx.1) (by decide))]
    split_ifs <;> rfl
  · rw [if_neg h1]
    by_cases h2 : getMode t = ModeReadingOAMVRAM
    · rw [if_pos h2, if_neg (show ¬(getMode t = ModeHBlank ∧ HBlankCycles ≤ t.modeClock ∧ (t.ly + 1) % 256 = 144) from fun hx => absurd (h2.symm.trans hx.1) (by decide))]
      split_ifs
      · exact vblankCount_hblankTransition _
      · rfl
    · rw [if_neg h2]
      by_cases h3 : getMode t = ModeHBlank
      · rw [if_pos h3]
        by_cases h4 : HBlankCycles ≤ t.modeClock
        · rw [if_pos h4, vblankCount_hblankEnd]
          show (if (t.ly + 1) % 256 = 144 ∧ t.cpuPresent = true then 1 else 0) =
            if getMode t = ModeHBlank ∧ HBlankCycles ≤ t.modeClock ∧ (t.ly + 1) % 256 = 144 then 1 else 0
          by_cases h5 : (t.ly + 1) % 256 = 144
          · rw [if_pos (show (t.ly + 1) % 256 = 144 ∧ t.cpuPresent = true from ⟨h5, hcpu⟩), if_pos (show (getMode t = ModeHBlank ∧ HBlankCycles ≤ t.modeClock ∧ (t.ly + 1) % 256 = 144) from ⟨h3, h4, h5⟩)]
          · rw [if_neg (show ¬((t.ly + 1) % 256 = 144 ∧ t.cpuPresent = true) from fun hx => h5 hx.1), if_neg (show ¬(getMode t = ModeHBlank ∧ HBlankCycles ≤ t.modeClock ∧ (t.ly + 1) % 256 = 144) from fun hx => h5 hx.2.2)]
        · rw [if_neg h4, if_neg (show ¬(getMode t = ModeHBlank ∧ HBlankCycles ≤ t.modeClock ∧ (t.ly + 1) % 256 = 144) from fun hx => h4 hx.2.1)]
          rfl
      · rw [if_neg h3, if_neg (show ¬(getMode t = ModeHBlank ∧ HBlankCycles ≤ t.modeClock ∧ (t.ly + 1) % 256 = 144) from fun hx => h3 hx.1)]
        by_cases h6 : getMode t = ModeVBlank
        · rw [if_pos h6]
          split_ifs
          · exact vblankCount_vblankLine _
          · rfl
        · rw [if_neg h6]
          rfl

theorem hblankEnd_at_144 (u : GPUState) (h : u.ly = 144) :
    hblankEnd u = (setMode u ModeVBlank,
      (if (setMode u ModeVBlank).vsyncPresent = true then [GPUEffect.frame] else []) ++
        (if (setMode u ModeVBlank).cpuPresent = true then GPUEffect.intVBlank ::
            (if isBitSet ((setMode u ModeVBlank).stat) 4 = true
             then [GPUEffect.intStat] else [])
          else [])) := by
  simp only [hblankEnd]
  rw [if_pos h]

theorem stepModesAt_to_vblank (t : GPUState) (hm : getMode t = ModeHBlank)
    (hth : HBlankCycles ≤ t.modeClock) (h144 : (t.ly + 1) % 256 = 144)
    (hcpu : t.cpuPresent = true) (hvs : t.vsyncPresent = true) :
    getMode (stepModesAt t).1 = ModeVBlank ∧
    (stepModesAt t).2 = GPUEffect.frame :: GPUEffect.intVBlank ::
      (if isBitSet t.stat 4 then [GPUEffect.intStat] else []) := by
  have hn1 : ¬(getMode t = ModeReadingOAM) := by rw [hm]; decide
  have hn2 : ¬(getMode t = ModeReadingOAMVRAM) := by rw [hm]; decide
  unfold stepModesAt
  rw [if_neg hn1, if_neg hn2, if_pos hm, if_pos hth,
    hblankEnd_at_144 { t with modeClock := t.modeClock - HBlankCycles, ly := (t.ly + 1) % 256 } (h144 : { t with modeClock := t.modeClock - HBlankCycles, ly := (t.ly + 1) % 256 }.ly = 144)]
  constructor
  · exact getMode_setMode _ _ (by decide)
  · show (if t.vsyncPresent = true then [GPUEffect.frame] else []) ++
        (if t.cpuPresent = true then GPUEffect.intVBlank ::
            (if Nat.testBit ((t.stat &&& 0xFC) ||| ModeVBlank) 4 = true
             then [GPUEffect.intStat] else [])
          else []) =
      GPUEffect.frame :: GPUEffect.intVBlank ::
        (if Nat.testBit t.stat 4 = true then [GPUEffect.intStat] else [])
    rw [if_pos hvs, if_pos hcpu,
      testBit_setMode t.stat ModeVBlank 4 (by decide) (by decide) (by decide)]
    rfl

/-- C3: with the display enabled and both collaborators present, a Step call
requests exactly one VBlank interrupt precisely when it performs the
HBlank-threshold transition that brings the scanline index to 144; in that
case it enters VBlank mode and its mode-handling effects are exactly the
frame-sink invocation, the single VBlank interrupt request, and an LCD-STAT
request exactly when the VBlank STAT-interrupt-enable bit (STAT bit 4) is
set. -/
theorem hblank_to_vblank_transition (s : GPUState) (c : Nat)
    (hd : displayEnabled s = true) (hcpu : s.cpuPresent = true)
    (hvs : s.vsyncPresent = true) :
    (vblankCount (Step s c).2 =
      if getMode s = ModeHBlank ∧ HBlankCycles ≤ s.modeClock + c ∧
          (s.ly + 1) % 256 = 144
       then 1 else 0) ∧
    (getMode s = ModeHBlank → HBlankCycles ≤ s.modeClock + c →
      (s.ly + 1) % 256 = 144 →
      getMode (Step s c).1 = ModeVBlank ∧
      (stepModes s c).2 = GPUEffect.frame :: GPUEffect.intVBlank ::
        (if isBitSet s.stat 4 then [GPUEffect.intStat] else [])) := by
  have hne : ¬(displayEnabled s = false) := by rw [hd]; exact fun h => nomatch h
  have h1 : (Step s c).1 = (stepCoincidence (stepModes s c).1).1 := by
    unfold Step
    rw [if_neg hne]
  have h2 : (Step s c).2 =
      (stepModes s c).2 ++ (stepCoincidence (stepModes s c).1).2 := by
    unfold Step
    rw [if_neg hne]
  constructor
  · rw [h2, vblankCount_append, vblankCount_stepCoincidence, Nat.add_zero]
    have hc := vblankCount_stepModesAt { s with modeClock := s.modeClock + c } hcpu
    exact hc
  · intro hm0 hth h144
    have hA := stepModesAt_to_vblank { s with modeClock := s.modeClock + c }
      hm0 hth h144 hcpu hvs
    constructor
    · rw [h1, (stepCoincidence_spec (stepModes s c).1).2.2.2.1]
      exact hA.1
    · exact hA.2

/-- Witness for C3 at the end of scanline 143 with STAT bit 4 set. -/
theorem hblank_to_vblank_transition_witness :
    (vblankCount (Step endOfLine143State 204).2 =
      if getMode endOfLine143State = ModeHBlank ∧
          HBlankCycles ≤ endOfLine143State.modeClock + 204 ∧
          (endOfLine143State.ly + 1) % 256 = 144
       then 1 else 0) ∧
    (getMode endOfLine143State = ModeHBlank →
      HBlankCycles ≤ endOfLine143State.modeClock + 204 →
      (endOfLine143State.ly + 1) % 256 = 144 →
      getMode (Step endOfLine143State 204).1 = ModeVBlank ∧
      (stepModes endOfLine143State 204).2 =
        GPUEffect.frame :: GPUEffect.intVBlank ::
          (if isBitSet endOfLine143State.stat 4 then [GPUEffect.intStat] else [])) :=
  hblank_to_vblank_transition endOfLine143State 204 (by decide) (by decide) (by decide)

end GB

namespace GB

theorem hblankEnd_state (u : GPUState) :
    (hblankEnd u).1.modeClock = u.modeClock ∧
    (getMode (hblankEnd u).1 = ModeVBlank ∨
      getMode (hblankEnd u).1 = ModeReadingOAM) := by
  simp only [hblankEnd]
  split_ifs <;>
    first
      | exact ⟨rfl, Or.inl (getMode_setMode _ _ (by decide))⟩
      | exact ⟨rfl, Or.inr (getMode_setMode _ _ (by decide))⟩

theorem vblankLine_state (u : GPUState) :
    (vblankLine u).1.modeClock = u.modeClock ∧
    (getMode (vblankLine u).1 = ModeReadingOAM ∨
      getMode (vblankLine u).1 = getMode u) := by
  unfold vblankLine
  split_ifs
  · exact ⟨rfl, Or.inl (getMode_setMode _ _ (by decide))⟩
  · exact ⟨rfl, Or.inr rfl⟩

theorem hblankTransition_state (u : GPUState) :
    (hblankTransition u).1.modeClock = u.modeClock - ReadingOAMVRAMCycles ∧
    getMode (hblankTransition u).1 = ModeHBlank := by
  have hfb := renderScanline_sameExceptFb (hblankEntry u)
  obtain ⟨a1, a2, a3, a4, a5, a6, a7, a8, a9, a10, a11, a12, a13, a14, a15, a16, a17⟩ := hfb
  constructor
  · exact a12
  · show (RenderScanline (hblankEntry u)).stat &&& 3 = ModeHBlank
    rw [a2]
    exact getMode_setMode _ _ (by decide)

theorem stepModesAt_clock_bounded (t : GPUState)
    (h : t.modeClock < modeThreshold (getMode t) + ReadingOAMCycles) :
    (stepModesAt t).1.modeClock < modeThreshold (getMode (stepModesAt t).1) := by
  unfold stepModesAt
  by_cases h1 : getMode t = ModeReadingOAM
  · rw [if_pos h1]
    rw [h1] at h
    have hnum : t.modeClock < 160 := h
    by_cases h2 : ReadingOAMCycles ≤ t.modeClock
    · rw [if_pos h2]
      rw [getMode_setMode _ _ (by decide)]
      show t.modeClock - ReadingOAMCycles < 172
      have h80 : ReadingOAMCycles = 80 := rfl
      omega
    · rw [if_neg h2]
      rw [h1]
      show t.modeClock < 80
      have h80 : ReadingOAMCycles = 80 := rfl
      omega
  · rw [if_neg h1]
    by_cases h2 : getMode t = ModeReadingOAMVRAM
    · rw [if_pos h2]
      rw [h2] at h
      have hnum : t.modeClock < 252 := h
      by_cases h3 : ReadingOAMVRAMCycles ≤ t.modeClock
      · rw [if_pos h3]
        obtain ⟨hmc, hgm⟩ := hblankTransition_state t
        rw [hmc, hgm]
        show t.modeClock - ReadingOAMVRAMCycles < 204
        have h172 : ReadingOAMVRAMCycles = 172 := rfl
        omega
      · rw [if_neg h3]
        rw [h2]
        show t.modeClock < 172
        have h172 : ReadingOAMVRAMCycles = 172 := rfl
        omega
    · rw [if_neg h2]
      by_cases h3 : getMode t = ModeHBlank
      · rw [if_pos h3]
        rw [h3] at h
        have hnum : t.modeClock < 284 := h
        by_cases h4 : HBlankCycles ≤ t.modeClock
        · rw [if_pos h4]
          obtain ⟨hmc, hgm⟩ := hblankEnd_state
            { t with modeClock := t.modeClock - HBlankCycles, ly := (t.ly + 1) % 256 }
          rw [hmc]
          have hmc2 : ({ t with modeClock := t.modeClock - HBlankCycles, ly := (t.ly + 1) % 256 } : GPUState).modeClock = t.modeClock - 204 := rfl
          rw [hmc2]
          rcases hgm with hgm | hgm <;> rw [hgm]
          · show t.modeClock - 204 < 456
            omega
          · show t.modeClock - 204 < 80
            have h204 : HBlankCycles = 204 := rfl
            omega
        · rw [if_neg h4]
          rw [h3]
          show t.modeClock < 204
          have h204 : HBlankCycles = 204 := rfl
          omega
      · by_cases h4 : getMode t = ModeVBlank
        · rw [if_neg h3, if_pos h4]
          rw [h4] at h
          have hnum : t.modeClock < 536 := h
          by_cases h5 : VBlankCycles ≤ t.modeClock
          · rw [if_pos h5]
            obtain ⟨hmc, hgm⟩ := vblankLine_state
              { t with modeClock := t.modeClock - VBlankCycles, ly := (t.ly + 1) % 256 }
            rw [hmc]
            have hmc2 : ({ t with modeClock := t.modeClock - VBlankCycles, ly := (t.ly + 1) % 256 } : GPUState).modeClock = t.modeClock - 456 := rfl
            rw [hmc2]
            rcases hgm with hgm | hgm <;> rw [hgm]
            · show t.modeClock - 456 < 80
              omega
            · have hgm2 : getMode { t with modeClock := t.modeClock - VBlankCycles, ly := (t.ly + 1) % 256 } = getMode t := rfl
              rw [hgm2, h4]
              show t.modeClock - 456 < 456
              omega
          · rw [if_neg h5]
            rw [h4]
            show t.modeClock < 456
            have h456 : VBlankCycles = 456 := rfl
            omega
        · rw [if_neg h3, if_neg h4]
          have hlt := getMode_lt_four t
          have e0 : ModeHBlank = 0 := rfl
          have e1 : ModeVBlank = 1 := rfl
          have e2 : ModeReadingOAM = 2 := rfl
          have e3 : ModeReadingOAMVRAM = 3 := rfl
          rw [e2] at h1
          rw [e3] at h2
          rw [e0] at h3
          rw [e1] at h4
          omega

/-- C2 counterexample: with the display enabled, a single Step call whose
cycles argument spans more than one mode window leaves the mode clock at or
above the threshold of the mode that is active when Step returns, refuting
the unrestricted invariant. -/
theorem step_modeClock_unbounded_cex :
    displayEnabled oamSearchState = true ∧
    ¬ ((Step oamSearchState 252).1.modeClock <
      modeThreshold (getMode (Step oamSearchState 252).1)) := by decide

/-- C2 as amended: if before a display-enabled Step call the mode clock is
below the active mode's threshold and the cycles argument is at most 80 (the
OAM-search threshold, the smallest of the four), then after the call the
mode clock is strictly below the threshold of the then-active mode. -/
theorem step_modeClock_bounded (s : GPUState) (c : Nat)
    (hd : displayEnabled s = true)
    (hw : s.modeClock < modeThreshold (getMode s))
    (hc : c ≤ ReadingOAMCycles) :
    (Step s c).1.modeClock < modeThreshold (getMode (Step s c).1) := by
  have hne : ¬(displayEnabled s = false) := by rw [hd]; exact fun h => nomatch h
  have h1 : (Step s c).1 = (stepCoincidence (stepModes s c).1).1 := by
    unfold Step
    rw [if_neg hne]
  rw [h1, (stepCoincidence_spec (stepModes s c).1).2.2.1,
    (stepCoincidence_spec (stepModes s c).1).2.2.2.1]
  have harg : ({ s with modeClock := s.modeClock + c } : GPUState).modeClock <
      modeThreshold (getMode { s with modeClock := s.modeClock + c }) +
        ReadingOAMCycles := by
    show s.modeClock + c < modeThreshold (getMode s) + ReadingOAMCycles
    omega
  exact stepModesAt_clock_bounded { s with modeClock := s.modeClock + c } harg

/-- Witness for the amended C2 at a concrete OAM-search state. -/
theorem step_modeClock_bounded_witness :
    (Step oamSearchState 10).1.modeClock <
      modeThreshold (getMode (Step oamSearchState 10).1) :=
  step_modeClock_bounded oamSearchState 10 (by decide) (by decide) (by decide)

end GB

namespace GB

/-- C1 code evidence: for a sprite with the priority flag set (attribute
bit 7) over a framebuffer pixel holding shade index 0 (the lightest shade,
GBColors[0] = 0xEB), the sprite renderer leaves the pixel unchanged instead
of writing the mapped shade 0xC4; over a pixel holding the darkest shade
(GBColors[3] = 0x00, shade index 3) it does write the mapped shade.  The
priority comparison in the code tests the framebuffer byte against
0x00 = GBColors[3] rather than the lightest shade GBColors[0] its own
comments call white. -/
theorem sprite_priority_compares_darkest :
    gbColor 0 = 0xEB ∧ gbColor 3 = 0x00 ∧
    objPalette priorityWhiteState 0 1 = 0xC4 ∧
    (RenderOBJScanline priorityWhiteState).fb 0 = 0xEB ∧
    (RenderOBJScanline priorityDarkState).fb 0 = 0xC4 := by decide

end GB
